import Mathlib

/-!
Verification of the Restaurant_system repository: a shallow embedding of
`src/main.py`, `src/llm_services/restaurant_agent.py`,
`src/llm_services/intent_classifier.py` and
`src/llm_services/response_generator.py`, together with theorems settling
the specification claims about them.
-/

namespace RestaurantSystem

/-! ## Tool wiring of `RestaurantAIAgent` (restaurant_agent.py)

`RestaurantAIAgent._create_tools` declares six `Tool` records, each naming a
bound-method attribute of the instance as its implementation.  We record the
tool declarations (tool name, attribute looked up for `func`) and, separately,
the set of method names actually defined in the class body of
`RestaurantAIAgent`. -/

/-- The `(name, func-attribute)` pairs of the six `Tool(...)` entries returned
by `RestaurantAIAgent._create_tools` (restaurant_agent.py lines 28-61). -/
def createToolsDecls : List (String × String) :=
  [("check_availability", "check_availability"),
   ("get_menu_info", "get_menu_info"),
   ("make_reservation", "make_reservation"),
   ("check_hours", "check_hours"),
   ("process_order", "process_order"),
   ("get_wait_time", "get_wait_time")]

/-- The names of every method defined in the class body of
`RestaurantAIAgent` (restaurant_agent.py lines 12-187). -/
def restaurantAIAgentMethods : List String :=
  ["__init__", "_create_tools", "_create_agent",
   "check_availability", "get_menu_info", "make_reservation",
   "process_order", "_is_slot_available", "_calculate_prep_time"]

/-- The tool names whose `func` attribute is not a method defined on the
class, i.e. whose lookup `self.<attr>` raises `AttributeError` when
`_create_tools` runs during `__init__`. -/
def unboundToolNames : List String :=
  (createToolsDecls.filter
    (fun p => !(restaurantAIAgentMethods.contains p.2))).map Prod.fst

/-! ## Order processing (restaurant_agent.py lines 158-187) -/

/-- One entry of `order_details['items']`: a dict with `price` and
`quantity` fields (prices modelled as integer cents). -/
structure OrderItem where
  price : Int
  quantity : Int
deriving Repr, DecidableEq

/-- `RestaurantAIAgent._calculate_prep_time`: `base_time = 15`,
`item_time = len(items) * 3`, returns `base_time + item_time`. -/
def calculate_prep_time (items : List OrderItem) : Nat :=
  let base_time := 15
  let item_time := items.length * 3
  base_time + item_time

/-- The `order_details` dict taken by `process_order`: an `items` list and a
`customer` field. -/
structure OrderDetails where
  items : List OrderItem
  customer : String
deriving Repr, DecidableEq

/-- The order record built by `process_order` together with the returned
confirmation string.  `now` stands for
`datetime.now().strftime('%Y%m%d%H%M%S')`. -/
structure OrderResult where
  id : String
  items : List OrderItem
  total : Int
  estimated_time : Nat
  customer : String
  message : String
deriving Repr, DecidableEq

/-- `RestaurantAIAgent.process_order`: builds `ORD-`-prefixed id, sums
`price * quantity` over the items, computes the prep time with
`_calculate_prep_time`, and returns the confirmation message quoting the
total and the prep time. -/
def process_order (now : String) (order_details : OrderDetails) : OrderResult :=
  let order_id := "ORD-" ++ now
  let total := (order_details.items.map (fun item => item.price * item.quantity)).sum
  let prep_time := calculate_prep_time order_details.items
  { id := order_id
    items := order_details.items
    total := total
    estimated_time := prep_time
    customer := order_details.customer
    message := "Order " ++ order_id ++ " confirmed! Total: $" ++ toString total ++
      ". Ready in approximately " ++ toString prep_time ++ " minutes." }

/-! ## Reservation creation (restaurant_agent.py lines 141-156)

`make_reservation` reads `customer_info['name']`, `['phone']`,
`['date_time']`, `['party_size']` (each raising `KeyError` when absent) and
`customer_info.get('special_requests', '')`, then unconditionally returns a
confirmation string.  Dict values are modelled as strings; a `KeyError` is
modelled as `Except.error` naming the missing key. -/

/-- Python dict lookup `d[k]`: the first binding of the key, `KeyError`
otherwise. -/
def dictGet (d : List (String × String)) (k : String) : Except String String :=
  match d.lookup k with
  | some v => Except.ok v
  | none => Except.error ("KeyError: " ++ k)

/-- The reservation record built by `make_reservation`. -/
structure Reservation where
  id : String
  customer_name : String
  phone : String
  date_time : String
  party_size : String
  special_requests : String
deriving Repr, DecidableEq

/-- `RestaurantAIAgent.make_reservation`: builds a `RES-`-prefixed id from
the current time, reads the four required keys (first missing key raises),
and returns the confirmation string.  There is no availability check and no
unavailability branch. -/
def make_reservation (now : String) (customer_info : List (String × String)) :
    Except String (Reservation × String) := do
  let reservation_id := "RES-" ++ now
  let name ← dictGet customer_info "name"
  let phone ← dictGet customer_info "phone"
  let date_time ← dictGet customer_info "date_time"
  let party_size ← dictGet customer_info "party_size"
  let special_requests := (customer_info.lookup "special_requests").getD ""
  let reservation : Reservation :=
    { id := reservation_id
      customer_name := name
      phone := phone
      date_time := date_time
      party_size := party_size
      special_requests := special_requests }
  pure (reservation,
    "Reservation confirmed! ID: " ++ reservation_id ++ " for " ++ name ++
    ", party of " ++ party_size ++ " on " ++ date_time)

/-! ## Menu lookup (restaurant_agent.py lines 126-139) -/

/-- The value of one entry of `restaurant_config['menu_items']`: a dict with a
`price` (kept as its rendered string) and a `description`. -/
structure MenuItemDetails where
  price : String
  description : String
deriving Repr, DecidableEq

/-- Python's substring test `sub in s` on strings. -/
def pyContains (sub s : String) : Bool := decide (sub.toList <:+: s.toList)

/-- The fixed fallback message of `get_menu_info`. -/
def menuFallback : String :=
  "I couldn't find specific menu items matching your query. Would you like to see our full menu?"

/-- The line `f"{item}: ${details['price']} - {details['description']}"`
appended for a matching menu item. -/
def menuLine (p : String × MenuItemDetails) : String :=
  p.1 ++ ": $" ++ p.2.price ++ " - " ++ p.2.description

/-- `RestaurantAIAgent.get_menu_info`: iterates over
`restaurant_config['menu_items']` accumulating the formatted line of every
item whose lowercased name or lowercased description contains the lowercased
query, then joins them with newlines, or returns the fallback when none
matched.  (In the source the description is read with
`details.get('description', '')` for the match and `details['description']`
for the line; descriptions are total fields here, so both coincide.) -/
def get_menu_info (menu_items : List (String × MenuItemDetails)) (query : String) : String :=
  let relevant_items := menu_items.foldl
    (fun acc p =>
      if pyContains query.toLower p.1.toLower ||
         pyContains query.toLower p.2.description.toLower
      then acc ++ [menuLine p]
      else acc) []
  if relevant_items.isEmpty then menuFallback
  else String.intercalate "\n" relevant_items

/-- The matching predicate of `get_menu_info`, stated as in the spec: the
lowercased query is a substring of the lowercased item name or of the
lowercased description. -/
def menuMatches (query : String) (p : String × MenuItemDetails) : Bool :=
  pyContains query.toLower p.1.toLower || pyContains query.toLower p.2.description.toLower

/-! ## The bounded tool-calling loop (`_create_agent`, main loop)

`RestaurantAIAgent._create_agent` (restaurant_agent.py lines 63-107)
configures an `AgentExecutor` with `max_iterations=5` and
`early_stopping_method="generate"`.  The executor's loop itself lives in the
langchain framework, not under src/. -/

/-- The `max_iterations` value passed to `AgentExecutor` in `_create_agent`. -/
def max_iterations : Nat := 5

/-- A model reply: either a plain textual answer or a tool invocation with
arguments. -/
inductive ModelReply where
  | answer (text : String)
  | toolCall (tool : String) (args : String)
deriving Repr, DecidableEq

/-- One scratchpad record: a tool invocation and its observed result. -/
structure ToolStep where
  tool : String
  args : String
  observation : String
deriving Repr, DecidableEq

/-- The outcome of the agent loop: the produced output, the number of model
calls made, and whether the iteration cap was hit. -/
structure AgentOutcome where
  output : String
  modelCalls : Nat
  hitCap : Bool
deriving Repr, DecidableEq

/-- Whether a model reply is a plain answer. -/
def ModelReply.isAnswer : ModelReply → Bool
  | .answer _ => true
  | .toolCall _ _ => false

/-- The partial answer available when the loop stops at the cap: the last
tool observation in the scratchpad, if any. -/
def partialAnswer (scratchpad : List ToolStep) : String :=
  (scratchpad.map ToolStep.observation).getLastD ""

/-- Modelled from the spec: the bounded tool-calling loop of langchain's
`AgentExecutor` (not under src/) — "on each new input, issue one model call
with the system instructions, history, and input; if the model's reply names
a tool and arguments, execute the named tool, append the tool's result to
the scratch context, and issue another model call; repeat until the model
returns a plain answer or 5 iterations elapse, at which point return
whatever partial answer exists."  The model is a function from the scratch
context to a reply; tools map a name and arguments to a result string. -/
def agentLoopAux (model : List ToolStep → ModelReply) (tools : String → String → String) :
    Nat → List ToolStep → Nat → AgentOutcome
  | 0, scratchpad, calls =>
      { output := partialAnswer scratchpad, modelCalls := calls, hitCap := true }
  | fuel + 1, scratchpad, calls =>
      match model scratchpad with
      | .answer text => { output := text, modelCalls := calls + 1, hitCap := false }
      | .toolCall tool args =>
          agentLoopAux model tools fuel
            (scratchpad ++ [⟨tool, args, tools tool args⟩]) (calls + 1)

/-- Run the agent loop on a fresh input: empty scratchpad, `max_iterations`
iterations allowed. -/
def runAgent (model : List ToolStep → ModelReply) (tools : String → String → String) :
    AgentOutcome :=
  agentLoopAux model tools max_iterations [] 0

/-! ## Conversation memory (`__init__`, restaurant_agent.py lines 20-24)

`RestaurantAIAgent.__init__` configures `ConversationBufferWindowMemory`
with `k=10`; the window mechanics live in the langchain framework, not
under src/. -/

/-- The `k` value passed to `ConversationBufferWindowMemory`. -/
def memory_k : Nat := 10

/-- One remembered turn of the conversation. -/
structure Turn where
  role : String
  content : String
deriving Repr, DecidableEq

/-- Modelled from the spec: the sliding window of langchain's
`ConversationBufferWindowMemory` (not under src/) — "maintain an ordered
list of the last K (K=10) user/assistant turns".  Keeps the most recent `k`
turns, in order. -/
def windowTurns (k : Nat) (turns : List Turn) : List Turn :=
  turns.drop (turns.length - k)

/-- Processing one input appends the user turn and the assistant turn to the
history and keeps the last `memory_k` turns for the next model call. -/
def recordExchange (history : List Turn) (userMsg assistantMsg : String) : List Turn :=
  windowTurns memory_k (history ++ [⟨"user", userMsg⟩, ⟨"assistant", assistantMsg⟩])

/-! ## Service boundary: `process_message` (main.py lines 74-123)

After resolving the per-restaurant agent, `process_message` computes
`cache_key = f"response:{restaurant_id}:{hash(message)}"`, consults the
cache, returns the cached value on a hit, and otherwise invokes the agent,
stores the response with `setex` (TTL not modelled), logs the exchange with
`log_conversation`, and returns the response.  The agent is abstracted as a
function from the input message to its output string, Python's `hash` as a
function from strings to integers, and the Redis cache as an association
list. -/

/-- Overwrite-or-insert into an association list (the semantics of a Redis
`SETEX` on a key, and of Python dict assignment). -/
def assocSet {α : Type} : List (String × α) → String → α → List (String × α)
  | [], k, v => [(k, v)]
  | (k', v') :: rest, k, v =>
      if k' = k then (k, v) :: rest else (k', v') :: assocSet rest k v

/-- The body of a `/process` request (`MessageRequest` in main.py lines
24-29); the open `context` dict is kept as a string map. -/
structure MessageRequest where
  message : String
  context : List (String × String)
  restaurant_id : String
  customer_id : String
  channel : String
deriving Repr, DecidableEq

/-- One message of a logged exchange. -/
structure LogMsg where
  role : String
  content : String
deriving Repr, DecidableEq

/-- The `conversations` table: rows keyed by
`(restaurant_id, customer_id, channel)`, each holding its concatenated
`messages` list. -/
abbrev ConversationLog : Type := List ((String × String × String) × List LogMsg)

/-- `log_conversation` (main.py lines 223-244): `INSERT ... ON CONFLICT
(restaurant_id, customer_id, channel) DO UPDATE SET messages =
conversations.messages || $4` — append the two new messages to the existing
row, or insert a fresh row. -/
def upsertLog : ConversationLog → (String × String × String) → List LogMsg → ConversationLog
  | [], key, msgs => [(key, msgs)]
  | (k, ms) :: rest, key, msgs =>
      if k = key then (k, ms ++ msgs) :: rest else (k, ms) :: upsertLog rest key msgs

/-- The mutable service state touched by `process_message`: the response
cache and the conversation log. -/
structure ServiceState where
  cache : List (String × String)
  conversations : ConversationLog
deriving Repr, DecidableEq

/-- The result of one `process_message` call: the returned response, how
many times the agent was invoked, and the state afterwards. -/
structure ProcessResult where
  response : String
  agentCalls : Nat
  state : ServiceState
deriving Repr, DecidableEq

/-- `cache_key = f"response:{restaurant_id}:{hash(message)}"`. -/
def cacheKeyFor (pyHash : String → Int) (restaurant_id message : String) : String :=
  "response:" ++ restaurant_id ++ ":" ++ toString (pyHash message)

/-- `process_message` (main.py lines 74-123) after agent resolution. -/
def process_message (pyHash : String → Int) (agent : String → String)
    (st : ServiceState) (req : MessageRequest) : ProcessResult :=
  let cache_key := cacheKeyFor pyHash req.restaurant_id req.message
  match st.cache.lookup cache_key with
  | some cached => { response := cached, agentCalls := 0, state := st }
  | none =>
      let response := agent req.message
      let cache' := assocSet st.cache cache_key response
      let conversations' := upsertLog st.conversations
        (req.restaurant_id, req.customer_id, req.channel)
        [⟨"user", req.message⟩, ⟨"assistant", response⟩]
      { response := response
        agentCalls := 1
        state := { cache := cache', conversations := conversations' } }

/-! ## Response generation (response_generator.py)

`RestaurantResponseGenerator` holds six named `ChatPromptTemplate`s; prompt
slot substitution (`format_messages`, a langchain facility not under src/)
is modelled as textual replacement of `{name}` slots from a context map, and
the language model as a function from the formatted messages to prose. -/

/-- A left brace character (the slot opener of a prompt template). -/
def lbrace : Char := Char.ofNat 123

/-- A right brace character (the slot closer of a prompt template). -/
def rbrace : Char := Char.ofNat 125

/-- Read a slot name up to the closing brace; returns the name and the rest
of the input. -/
def readSlot : List Char → (List Char × List Char)
  | [] => ([], [])
  | c :: rest =>
      if c == rbrace then ([], rest)
      else
        let (n, r) := readSlot rest
        (c :: n, r)

/-- Fuel-indexed slot substitution over a character list: each `{name}` is
replaced by the context's value for `name` (empty when absent). -/
def fillAux (ctx : List (String × String)) : Nat → List Char → List Char
  | 0, cs => cs
  | _ + 1, [] => []
  | fuel + 1, c :: rest =>
      if c == lbrace then
        let (n, r) := readSlot rest
        ((ctx.lookup (String.mk n)).getD "").toList ++ fillAux ctx fuel r
      else c :: fillAux ctx fuel rest

/-- Modelled from the spec: langchain's prompt-template formatting (not
under src/) — fill each `{name}` slot of the pattern from the context. -/
def fillSlots (ctx : List (String × String)) (pattern : String) : String :=
  String.mk (fillAux ctx (pattern.toList.length + 1) pattern.toList)

/-- Format every `(role, pattern)` message of a template against a context
(`ChatPromptTemplate.format_messages`). -/
def formatMessages (tmpl : List (String × String)) (ctx : List (String × String)) :
    List (String × String) :=
  tmpl.map (fun m => (m.1, fillSlots ctx m.2))

/-- `RestaurantResponseGenerator._load_templates` (response_generator.py
lines 17-49): the six named templates; the review templates interpolate the
restaurant's name into their system message at load time. -/
def load_templates (restaurantName : String) : List (String × List (String × String)) :=
  [("reservation_confirm",
    [("system", "You are confirming a reservation. Be professional and include all details."),
     ("human", "Confirm reservation for {name}, party of {size} on {date} at {time}")]),
   ("reservation_unavailable",
    [("system", "The requested time is not available. Offer alternatives politely."),
     ("human", "No availability for {size} people at {time}. Alternatives: {alternatives}")]),
   ("menu_response",
    [("system", "Provide menu information enthusiastically. Mention prices and any specials."),
     ("human", "Customer asking about: {query}. Menu items: {items}")]),
   ("order_confirmation",
    [("system", "Confirm the order clearly with all details and total price."),
     ("human", "Order details: {order_details}")]),
   ("review_response_positive",
    [("system", "Respond to a positive review for " ++ restaurantName ++ ". Be grateful and personal."),
     ("human", "Review: {review_text}, Rating: {rating}/5")]),
   ("review_response_negative",
    [("system", "Respond to a negative review for " ++ restaurantName ++
        ". Be apologetic, professional, and offer to make things right."),
     ("human", "Review: {review_text}, Rating: {rating}/5, Issues mentioned: {issues}")])]

/-- The six template keys, in declaration order. -/
def templateKeys : List String :=
  ["reservation_confirm", "reservation_unavailable", "menu_response",
   "order_confirmation", "review_response_positive", "review_response_negative"]

/-- The tone modifier of `generate_response`: `casual` and `formal` set a
`tone_instruction` entry in the context; any other tone leaves it unchanged. -/
def addToneInstruction (tone : String) (context : List (String × String)) :
    List (String × String) :=
  if tone == "casual" then assocSet context "tone_instruction" "Be friendly and casual"
  else if tone == "formal" then assocSet context "tone_instruction" "Be formal and professional"
  else context

/-- `RestaurantResponseGenerator._generate_generic_response`
(response_generator.py lines 74-84): a two-message generic prompt formatted
with the single variable `query = context.get('query', '')`. -/
def generate_generic_response (llm : List (String × String) → String)
    (restaurantName : String) (context : List (String × String)) : String :=
  let generic_prompt :=
    [("system", "You are an AI assistant for " ++ restaurantName ++
        ". Help the customer with their inquiry."),
     ("human", "{query}")]
  llm (formatMessages generic_prompt [("query", (context.lookup "query").getD "")])

/-- `RestaurantResponseGenerator.generate_response` (response_generator.py
lines 51-72): select the template keyed by the intent, fall back to the
generic response when there is none, apply the tone modifier, format the
template, and ask the model. -/
def generate_response (llm : List (String × String) → String) (restaurantName : String)
    (intent : String) (context : List (String × String)) (tone : String) : String :=
  match (load_templates restaurantName).lookup intent with
  | none => generate_generic_response llm restaurantName context
  | some template => llm (formatMessages template (addToneInstruction tone context))

/-! ## Intent classification (intent_classifier.py)

`IntentClassification` (lines 9-28) is a pydantic model: `primary_intent`
is a `Literal` over eight strings, `entities` defaults to an empty dict,
`confidence` is a float, `requires_human` defaults to `False`.
`RestaurantIntentClassifier.classify` (lines 59-69) formats the prompt,
calls the model, and parses the reply against that schema with
`PydanticOutputParser`.  The model call is external, so `classify` is
embedded as the validation of an already-decoded raw reply against the
schema declared in the source; floats are modelled as rationals. -/

/-- The eight admissible `primary_intent` values. -/
inductive PrimaryIntent where
  | reservation
  | menu_inquiry
  | hours_inquiry
  | order_placement
  | order_status
  | complaint
  | general_inquiry
  | feedback
deriving Repr, DecidableEq

/-- The string of each `Literal` alternative. -/
def PrimaryIntent.toLiteral : PrimaryIntent → String
  | .reservation => "reservation"
  | .menu_inquiry => "menu_inquiry"
  | .hours_inquiry => "hours_inquiry"
  | .order_placement => "order_placement"
  | .order_status => "order_status"
  | .complaint => "complaint"
  | .general_inquiry => "general_inquiry"
  | .feedback => "feedback"

/-- The `Literal[...]` list of `primary_intent`, in declaration order. -/
def intentLiterals : List String :=
  ["reservation", "menu_inquiry", "hours_inquiry", "order_placement",
   "order_status", "complaint", "general_inquiry", "feedback"]

/-- Validation of a `primary_intent` string against the `Literal`: exactly
the eight listed strings are accepted. -/
def parsePrimaryIntent (s : String) : Option PrimaryIntent :=
  if s = "reservation" then some .reservation
  else if s = "menu_inquiry" then some .menu_inquiry
  else if s = "hours_inquiry" then some .hours_inquiry
  else if s = "order_placement" then some .order_placement
  else if s = "order_status" then some .order_status
  else if s = "complaint" then some .complaint
  else if s = "general_inquiry" then some .general_inquiry
  else if s = "feedback" then some .feedback
  else none

/-- A successfully parsed classification result (the pydantic
`IntentClassification`). -/
structure IntentClassification where
  primary_intent : PrimaryIntent
  entities : List (String × String)
  confidence : Rat
  requires_human : Bool
deriving Repr, DecidableEq

/-- The fields of a decoded model reply before schema validation; `none`
marks an absent field. -/
structure RawReply where
  primary_intent : Option String
  entities : Option (List (String × String))
  confidence : Option Rat
  requires_human : Option Bool
deriving Repr, DecidableEq

/-- Schema validation of a decoded reply: `primary_intent` must be present
and one of the eight literals; `confidence` must be present (it has no
default); `entities` defaults to the empty map and `requires_human` to
`false`. -/
def parseClassification (raw : RawReply) : Option IntentClassification := do
  let intentStr ← raw.primary_intent
  let intent ← parsePrimaryIntent intentStr
  let conf ← raw.confidence
  pure { primary_intent := intent
         entities := raw.entities.getD []
         confidence := conf
         requires_human := raw.requires_human.getD false }

/-- `RestaurantIntentClassifier.classify`: the model's decoded reply is
validated against the schema; the prompt formatting and the model call are
external and abstracted into the decoded reply itself. -/
def classify (decodedReply : RawReply) : Option IntentClassification :=
  parseClassification decodedReply

/-! ## Helper lemmas -/

/-- Accumulating conditional appends in a left fold is filtering then
mapping. -/
lemma foldl_append_filter {α β : Type} (f : α → Bool) (g : α → β) :
    ∀ (l : List α) (acc : List β),
      l.foldl (fun acc x => if f x then acc ++ [g x] else acc) acc =
        acc ++ (l.filter f).map g := by
  intro l
  induction l with
  | nil => intro acc; simp
  | cons x xs ih =>
      intro acc
      by_cases hx : f x
      · simp [List.foldl, hx, ih]
      · simp [List.foldl, hx, ih]

/-- Looking up the key just set by `assocSet` yields the new value. -/
lemma assocSet_lookup {α : Type} (l : List (String × α)) (k : String) (v : α) :
    (assocSet l k v).lookup k = some v := by
  induction l with
  | nil => simp [assocSet, List.lookup]
  | cons head rest ih =>
      obtain ⟨k', v'⟩ := head
      by_cases hk : k' = k
      · subst hk; simp [assocSet, List.lookup]
      · have hbeq : (k == k') = false := beq_eq_false_iff_ne.mpr (Ne.symm hk)
        simp [assocSet, List.lookup, hk, hbeq, ih]

/-- After `upsertLog`, the key's row holds its old messages (empty when the
row is new) followed by the appended ones. -/
lemma upsertLog_lookup (log : ConversationLog) (key : String × String × String)
    (msgs : List LogMsg) :
    (upsertLog log key msgs).lookup key = some ((log.lookup key).getD [] ++ msgs) := by
  induction log with
  | nil => simp [upsertLog, List.lookup]
  | cons head rest ih =>
      obtain ⟨k, ms⟩ := head
      by_cases hk : k = key
      · subst hk; simp [upsertLog, List.lookup]
      · have hbeq : (key == k) = false := beq_eq_false_iff_ne.mpr (Ne.symm hk)
        simp [upsertLog, List.lookup, hk, hbeq, ih]

/-! ## Claim theorems -/

/-- C1: the claim that all six declared tools are bound to callable
implementations is false on the code — `_create_tools` declares exactly the
six tool names, but `check_hours` and `get_wait_time` name no method defined
on `RestaurantAIAgent`, so those two `self.<attr>` lookups fail (and the six
cannot all be executed). -/
theorem create_tools_declares_six_but_two_unbound :
    createToolsDecls.map Prod.fst =
      ["check_availability", "get_menu_info", "make_reservation",
       "check_hours", "process_order", "get_wait_time"] ∧
    unboundToolNames = ["check_hours", "get_wait_time"] ∧
    restaurantAIAgentMethods.contains "check_hours" = false ∧
    restaurantAIAgentMethods.contains "get_wait_time" = false := by
  decide

/-- C6: `_calculate_prep_time` returns `15 + 3 ×` the number of item
entries, depending only on that length (not on prices, quantities or
identities), and `process_order` reports exactly this value as the
estimated time, both in its order record and in its message. -/
theorem prep_time_is_fifteen_plus_three_per_item :
    ∀ (now : String) (details : OrderDetails),
      calculate_prep_time details.items = 15 + 3 * details.items.length ∧
      (process_order now details).estimated_time = 15 + 3 * details.items.length ∧
      (process_order now details).message =
        "Order " ++ ("ORD-" ++ now) ++ " confirmed! Total: $" ++
          toString (process_order now details).total ++
          ". Ready in approximately " ++ toString (15 + 3 * details.items.length) ++
          " minutes." ∧
      (∀ items' : List OrderItem, items'.length = details.items.length →
        calculate_prep_time items' = calculate_prep_time details.items) := by
  intro now details
  have h3 : details.items.length * 3 = 3 * details.items.length := Nat.mul_comm _ _
  refine ⟨by simp [calculate_prep_time]; ring, by simp [process_order, calculate_prep_time]; ring, ?_, ?_⟩
  · simp [process_order, calculate_prep_time, h3, String.append_assoc]
  · intro items' hlen
    simp [calculate_prep_time, hlen]

/-- C6 witness: concrete evaluation — two one-item orders with different
prices and quantities share the prep time 18, reported by `process_order`. -/
theorem prep_time_is_fifteen_plus_three_per_item_witness :
    calculate_prep_time [OrderItem.mk 999 7] =
      calculate_prep_time [OrderItem.mk 1000 2] ∧
    (process_order "X" (OrderDetails.mk [OrderItem.mk 1000 2] "Bob")).estimated_time =
      15 + 3 * 1 := by
  refine ⟨(prep_time_is_fifteen_plus_three_per_item "X"
      (OrderDetails.mk [OrderItem.mk 1000 2] "Bob")).2.2.2 [OrderItem.mk 999 7] (by decide), ?_⟩
  have h := (prep_time_is_fifteen_plus_three_per_item "X"
      (OrderDetails.mk [OrderItem.mk 1000 2] "Bob")).2.1
  simpa using h

/-- C10: whenever `customer_info` has the four required keys,
`make_reservation` returns the `Reservation confirmed!` message with the
`RES-`-prefixed id — for any date/time and party size, with no availability
consultation and no unavailability branch — and it errors (a `KeyError`)
exactly when a required key is missing, e.g. `name`. -/
theorem make_reservation_always_confirms :
    ∀ (now : String) (info : List (String × String)) (name phone dt ps : String),
      (info.lookup "name" = some name → info.lookup "phone" = some phone →
       info.lookup "date_time" = some dt → info.lookup "party_size" = some ps →
        make_reservation now info = Except.ok
          ({ id := "RES-" ++ now, customer_name := name, phone := phone,
             date_time := dt, party_size := ps,
             special_requests := (info.lookup "special_requests").getD "" },
           "Reservation confirmed! ID: " ++ ("RES-" ++ now) ++ " for " ++ name ++
             ", party of " ++ ps ++ " on " ++ dt)) ∧
      (info.lookup "name" = none →
        make_reservation now info = Except.error "KeyError: name") := by
  intro now info name phone dt ps
  constructor
  · intro h1 h2 h3 h4
    simp [make_reservation, dictGet, h1, h2, h3, h4, bind, Except.bind,
      pure, Except.pure, String.append_assoc]
  · intro h1
    simp [make_reservation, dictGet, h1, bind, Except.bind]

/-- C10 witness: a complete `customer_info` yields the confirmation, an
empty one the `KeyError` for `name`. -/
theorem make_reservation_always_confirms_witness :
    make_reservation "20260101T" [("name", "Ann"), ("phone", "555"),
        ("date_time", "2026-01-01 19:00"), ("party_size", "4")] = Except.ok
      ({ id := "RES-" ++ "20260101T", customer_name := "Ann", phone := "555",
         date_time := "2026-01-01 19:00", party_size := "4",
         special_requests := "" },
       "Reservation confirmed! ID: " ++ ("RES-" ++ "20260101T") ++ " for " ++ "Ann" ++
         ", party of " ++ "4" ++ " on " ++ "2026-01-01 19:00") ∧
    make_reservation "20260101T" [] = Except.error "KeyError: name" := by
  constructor
  · have h := (make_reservation_always_confirms "20260101T"
      [("name", "Ann"), ("phone", "555"), ("date_time", "2026-01-01 19:00"),
       ("party_size", "4")] "Ann" "555" "2026-01-01 19:00" "4").1
    simpa using h (by decide) (by decide) (by decide) (by decide)
  · exact (make_reservation_always_confirms "20260101T" [] "" "" "" "").2 (by decide)

/-- C3: after every processed input the remembered history is the most
recent (at most) 10 turns of the extended transcript, in order: its length
is `min 10` of the transcript length, it is a suffix of the transcript, and
while the transcript still fits nothing is dropped. -/
theorem memory_window_keeps_last_ten :
    ∀ (history : List Turn) (u a : String),
      (recordExchange history u a).length = min 10 (history.length + 2) ∧
      recordExchange history u a <:+
        (history ++ [Turn.mk "user" u, Turn.mk "assistant" a]) ∧
      (history.length + 2 ≤ 10 →
        recordExchange history u a =
          history ++ [Turn.mk "user" u, Turn.mk "assistant" a]) := by
  intro history u a
  refine ⟨?_, ?_, ?_⟩
  · simp [recordExchange, windowTurns, memory_k]
    omega
  · exact List.drop_suffix _ _
  · intro hle
    have hz : history.length + 2 - memory_k = 0 := by
      simp [memory_k]
      omega
    simp [recordExchange, windowTurns, List.length_append, hz]

/-- C3 witness: a 9-turn history plus an exchange still fits entirely; an
11-turn history is trimmed to the last 10 turns. -/
theorem memory_window_keeps_last_ten_witness :
    recordExchange [Turn.mk "user" "hi"] "a" "b" =
      [Turn.mk "user" "hi"] ++ [Turn.mk "user" "a", Turn.mk "assistant" "b"] ∧
    (recordExchange (List.replicate 11 (Turn.mk "user" "x")) "a" "b").length =
      min 10 ((List.replicate 11 (Turn.mk "user" "x")).length + 2) := by
  exact ⟨(memory_window_keeps_last_ten [Turn.mk "user" "hi"] "a" "b").2.2 (by decide),
    (memory_window_keeps_last_ten (List.replicate 11 (Turn.mk "user" "x")) "a" "b").1⟩

/-- The agent loop makes at most `fuel` further model calls. -/
lemma agentLoopAux_calls_le (model : List ToolStep → ModelReply)
    (tools : String → String → String) :
    ∀ (fuel : Nat) (scratchpad : List ToolStep) (calls : Nat),
      (agentLoopAux model tools fuel scratchpad calls).modelCalls ≤ calls + fuel := by
  intro fuel
  induction fuel with
  | zero => intro scratchpad calls; simp [agentLoopAux]
  | succ n ih =>
      intro scratchpad calls
      simp only [agentLoopAux]
      cases hm : model scratchpad with
      | answer text => simp
      | toolCall tool args =>
          calc (agentLoopAux model tools n
              (scratchpad ++ [⟨tool, args, tools tool args⟩]) (calls + 1)).modelCalls
              ≤ calls + 1 + n := ih _ _
            _ = calls + (n + 1) := by omega

/-- When the model never produces a plain answer, the loop exhausts its fuel
and stops at the cap with the partial answer of some final scratchpad. -/
lemma agentLoopAux_no_answer (model : List ToolStep → ModelReply)
    (tools : String → String → String)
    (hno : ∀ scratchpad, (model scratchpad).isAnswer = false) :
    ∀ (fuel : Nat) (scratchpad : List ToolStep) (calls : Nat),
      ∃ sp, agentLoopAux model tools fuel scratchpad calls =
        { output := partialAnswer sp, modelCalls := calls + fuel, hitCap := true } := by
  intro fuel
  induction fuel with
  | zero => intro scratchpad calls; exact ⟨scratchpad, by simp [agentLoopAux]⟩
  | succ n ih =>
      intro scratchpad calls
      cases hm : model scratchpad with
      | answer text =>
          have := hno scratchpad
          rw [hm] at this
          simp [ModelReply.isAnswer] at this
      | toolCall tool args =>
          obtain ⟨sp, hsp⟩ := ih (scratchpad ++ [⟨tool, args, tools tool args⟩]) (calls + 1)
          refine ⟨sp, ?_⟩
          simp only [agentLoopAux, hm, hsp]
          congr 1
          omega

/-- C2: the agent loop performs at most 5 model-call iterations; at any
point a plain model answer ends the loop immediately with that answer; and
when the model never returns a plain answer the loop stops at exactly 5
calls with whatever partial answer the scratchpad holds. -/
theorem agent_loop_capped_at_five :
    ∀ (model : List ToolStep → ModelReply) (tools : String → String → String),
      (runAgent model tools).modelCalls ≤ 5 ∧
      (∀ (fuel : Nat) (scratchpad : List ToolStep) (calls : Nat) (text : String),
        model scratchpad = ModelReply.answer text →
        agentLoopAux model tools (fuel + 1) scratchpad calls =
          { output := text, modelCalls := calls + 1, hitCap := false }) ∧
      ((∀ scratchpad, (model scratchpad).isAnswer = false) →
        ∃ sp, runAgent model tools =
          { output := partialAnswer sp, modelCalls := 5, hitCap := true }) := by
  intro model tools
  refine ⟨?_, ?_, ?_⟩
  · have h := agentLoopAux_calls_le model tools max_iterations [] 0
    simpa [runAgent, max_iterations] using h
  · intro fuel scratchpad calls text hm
    simp [agentLoopAux, hm]
  · intro hno
    obtain ⟨sp, hsp⟩ := agentLoopAux_no_answer model tools hno max_iterations [] 0
    exact ⟨sp, by simpa [runAgent, max_iterations] using hsp⟩

/-- A model that always answers immediately. -/
def modelAlwaysAnswers : List ToolStep → ModelReply := fun _ => ModelReply.answer "done"

/-- A model that always calls a tool. -/
def modelAlwaysCalls : List ToolStep → ModelReply := fun _ => ModelReply.toolCall "t" "x"

/-- A constant tool implementation. -/
def toolsConst : String → String → String := fun _ _ => "obs"

/-- C2 witness: an immediate answer ends the loop after one call; a model
that always calls tools is stopped at exactly 5 calls. -/
theorem agent_loop_capped_at_five_witness :
    agentLoopAux modelAlwaysAnswers toolsConst 3 [] 0 =
      { output := "done", modelCalls := 1, hitCap := false } ∧
    (∃ sp, runAgent modelAlwaysCalls toolsConst =
      { output := partialAnswer sp, modelCalls := 5, hitCap := true }) :=
  ⟨(agent_loop_capped_at_five modelAlwaysAnswers toolsConst).2.1 2 [] 0 "done" rfl,
   (agent_loop_capped_at_five modelAlwaysCalls toolsConst).2.2 (fun _ => rfl)⟩

/-- C7: `get_menu_info` returns one formatted line per menu item matching
the case-insensitive substring test, in menu order, joined by newlines, and
the fixed fallback when no item matches; the matching test holds exactly
when the lowercased query is an infix of the lowercased name or of the
lowercased description. -/
theorem get_menu_info_filters_by_substring :
    ∀ (menu_items : List (String × MenuItemDetails)) (query : String),
      get_menu_info menu_items query =
        (if (menu_items.filter (menuMatches query)).isEmpty then menuFallback
         else String.intercalate "\n"
           ((menu_items.filter (menuMatches query)).map menuLine)) ∧
      (∀ p, menuMatches query p = true ↔
        (query.toLower.toList <:+: p.1.toLower.toList ∨
         query.toLower.toList <:+: p.2.description.toLower.toList)) := by
  intro menu_items query
  constructor
  · show (let relevant_items := menu_items.foldl _ []
      if relevant_items.isEmpty then menuFallback
      else String.intercalate "\n" relevant_items) = _
    rw [show (menu_items.foldl
        (fun acc p => if pyContains query.toLower p.1.toLower ||
            pyContains query.toLower p.2.description.toLower
          then acc ++ [menuLine p] else acc) [] : List String) =
        [] ++ (menu_items.filter (menuMatches query)).map menuLine from
      foldl_append_filter (menuMatches query) menuLine menu_items []]
    simp only [List.nil_append]
    cases hf : menu_items.filter (menuMatches query) with
    | nil => simp
    | cons x xs => simp
  · intro p
    simp [menuMatches, pyContains]

/-- C5: `process_message` consults the cache first — a request whose key is
cached is answered with the cached value, with no agent invocation and the
state (cache and log) untouched; a request whose key is absent invokes the
agent once, returns its response, and stores that response in the cache
under the key. -/
theorem cache_checked_before_agent :
    ∀ (pyHash : String → Int) (agent : String → String)
      (st : ServiceState) (req : MessageRequest),
      (∀ c, st.cache.lookup (cacheKeyFor pyHash req.restaurant_id req.message) = some c →
        process_message pyHash agent st req =
          { response := c, agentCalls := 0, state := st }) ∧
      (st.cache.lookup (cacheKeyFor pyHash req.restaurant_id req.message) = none →
        (process_message pyHash agent st req).agentCalls = 1 ∧
        (process_message pyHash agent st req).response = agent req.message ∧
        ((process_message pyHash agent st req).state.cache).lookup
            (cacheKeyFor pyHash req.restaurant_id req.message) =
          some (agent req.message)) := by
  intro pyHash agent st req
  constructor
  · intro c hc
    simp [process_message, hc]
  · intro hn
    refine ⟨?_, ?_, ?_⟩
    · simp [process_message, hn]
    · simp [process_message, hn]
    · simp only [process_message, hn]
      exact assocSet_lookup _ _ _

/-- The constant-zero stand-in for Python's `hash`. -/
def pyHash0 : String → Int := fun _ => 0

/-- A stand-in agent returning a fixed answer. -/
def agent0 : String → String := fun _ => "fresh answer"

/-- A concrete `/process` request. -/
def req0 : MessageRequest :=
  { message := "hello", context := [], restaurant_id := "r1",
    customer_id := "c1", channel := "web" }

/-- A service state whose cache already holds `req0`'s key. -/
def st0 : ServiceState :=
  { cache := [("response:r1:0", "cached answer")], conversations := [] }

/-- An empty service state (no cached responses, no logged conversations). -/
def st1 : ServiceState := { cache := [], conversations := [] }

/-- C5 witness: on `st0` the cached answer is returned with zero agent
calls; on the empty state the agent is called once and its response is
cached under the key. -/
theorem cache_checked_before_agent_witness :
    process_message pyHash0 agent0 st0 req0 =
      { response := "cached answer", agentCalls := 0, state := st0 } ∧
    ((process_message pyHash0 agent0 st1 req0).agentCalls = 1 ∧
     (process_message pyHash0 agent0 st1 req0).response = agent0 req0.message ∧
     ((process_message pyHash0 agent0 st1 req0).state.cache).lookup
        (cacheKeyFor pyHash0 req0.restaurant_id req0.message) =
       some (agent0 req0.message)) :=
  ⟨(cache_checked_before_agent pyHash0 agent0 st0 req0).1 "cached answer" (by decide),
   (cache_checked_before_agent pyHash0 agent0 st1 req0).2 (by decide)⟩

/-- C4 counterexample: the claim that every successfully answered request
has its exchange appended to the conversation log is false — on `st0` the
request is answered (with the cached response), yet the conversation log is
left empty, with no row for the request's key. -/
theorem cache_hit_answers_without_logging :
    (process_message pyHash0 agent0 st0 req0).response = "cached answer" ∧
    (process_message pyHash0 agent0 st0 req0).state.conversations = [] ∧
    ((process_message pyHash0 agent0 st0 req0).state.conversations).lookup
      ("r1", "c1", "web") = none := by
  decide

/-- C4 (amended): a request answered on a cache miss has its exchange
appended to the conversation log row keyed by
`(restaurant_id, customer_id, channel)`; a request answered from the cache
leaves the conversation log unchanged. -/
theorem exchange_logged_exactly_on_cache_miss :
    ∀ (pyHash : String → Int) (agent : String → String)
      (st : ServiceState) (req : MessageRequest),
      (st.cache.lookup (cacheKeyFor pyHash req.restaurant_id req.message) = none →
        ((process_message pyHash agent st req).state.conversations).lookup
            (req.restaurant_id, req.customer_id, req.channel) =
          some ((st.conversations.lookup
              (req.restaurant_id, req.customer_id, req.channel)).getD [] ++
            [LogMsg.mk "user" req.message,
             LogMsg.mk "assistant" (agent req.message)])) ∧
      (∀ c, st.cache.lookup (cacheKeyFor pyHash req.restaurant_id req.message) = some c →
        (process_message pyHash agent st req).state.conversations =
          st.conversations) := by
  intro pyHash agent st req
  constructor
  · intro hn
    simp only [process_message, hn]
    exact upsertLog_lookup _ _ _
  · intro c hc
    simp [process_message, hc]

/-- C4 witness: on the empty state the logged row for `req0`'s key holds
exactly the new user/assistant exchange; on `st0` (cache hit) the log stays
as it was. -/
theorem exchange_logged_exactly_on_cache_miss_witness :
    ((process_message pyHash0 agent0 st1 req0).state.conversations).lookup
        ("r1", "c1", "web") =
      some [LogMsg.mk "user" "hello", LogMsg.mk "assistant" "fresh answer"] ∧
    (process_message pyHash0 agent0 st0 req0).state.conversations =
      st0.conversations := by
  constructor
  · have h := (exchange_logged_exactly_on_cache_miss pyHash0 agent0 st1 req0).1 (by decide)
    simpa using h
  · exact (exchange_logged_exactly_on_cache_miss pyHash0 agent0 st0 req0).2
      "cached answer" (by decide)

/-- An intent outside the six template keys has no template. -/
lemma lookup_templates_none (restaurantName intent : String)
    (h : templateKeys.contains intent = false) :
    (load_templates restaurantName).lookup intent = none := by
  have hm : intent ∉ templateKeys := by simpa [List.contains] using h
  simp only [templateKeys, List.mem_cons, List.not_mem_nil, or_false, not_or] at hm
  obtain ⟨h1, h2, h3, h4, h5, h6⟩ := hm
  simp [load_templates, List.lookup, beq_eq_false_iff_ne.mpr h1,
    beq_eq_false_iff_ne.mpr h2, beq_eq_false_iff_ne.mpr h3,
    beq_eq_false_iff_ne.mpr h4, beq_eq_false_iff_ne.mpr h5,
    beq_eq_false_iff_ne.mpr h6]

/-- Filling the one-slot pattern `{query}` from a context binding `query`
yields the bound value itself. -/
lemma fillSlots_query (q : String) : fillSlots [("query", q)] "{query}" = q := by
  have h1 : fillSlots [("query", q)] "{query}" = String.mk (q.data ++ []) := rfl
  rw [h1, List.append_nil]

/-- C8: `generate_response` selects the template stored under the intent key
and produces the model's prose from it; an intent outside the six template
keys falls back to the generic response, whose human message is exactly the
context's `query` field. -/
theorem generate_response_selects_template_or_generic :
    ∀ (llm : List (String × String) → String) (restaurantName intent : String)
      (context : List (String × String)) (tone : String),
      (templateKeys.contains intent = false →
        generate_response llm restaurantName intent context tone =
          generate_generic_response llm restaurantName context) ∧
      (∀ tmpl, (load_templates restaurantName).lookup intent = some tmpl →
        generate_response llm restaurantName intent context tone =
          llm (formatMessages tmpl (addToneInstruction tone context))) ∧
      (generate_generic_response llm restaurantName context =
        llm [("system", fillSlots [("query", (context.lookup "query").getD "")]
                ("You are an AI assistant for " ++ restaurantName ++
                 ". Help the customer with their inquiry.")),
             ("human", (context.lookup "query").getD "")]) := by
  intro llm restaurantName intent context tone
  refine ⟨?_, ?_, ?_⟩
  · intro h
    simp [generate_response, lookup_templates_none restaurantName intent h]
  · intro tmpl htmpl
    simp [generate_response, htmpl]
  · simp only [generate_generic_response, formatMessages, List.map]
    rw [fillSlots_query]

/-- A stand-in language model echoing the human messages it receives. -/
def llm0 : List (String × String) → String :=
  fun msgs => String.intercalate " | " (msgs.map Prod.snd)

/-- C8 witness: the unknown intent `chitchat` takes the generic fallback,
whose human message is the context's `query` value, and the known intent
`order_confirmation` uses its stored template. -/
theorem generate_response_selects_template_or_generic_witness :
    generate_response llm0 "Mario" "chitchat" [("query", "any tables?")] "professional" =
      generate_generic_response llm0 "Mario" [("query", "any tables?")] ∧
    generate_generic_response llm0 "Mario" [("query", "any tables?")] =
      llm0 [("system", fillSlots [("query", "any tables?")]
              ("You are an AI assistant for " ++ "Mario" ++
               ". Help the customer with their inquiry.")),
            ("human", "any tables?")] ∧
    generate_response llm0 "Mario" "order_confirmation" [("order_details", "2 pizzas")]
        "professional" =
      llm0 (formatMessages
        [("system", "Confirm the order clearly with all details and total price."),
         ("human", "Order details: {order_details}")]
        (addToneInstruction "professional" [("order_details", "2 pizzas")])) := by
  refine ⟨?_, ?_, ?_⟩
  · exact (generate_response_selects_template_or_generic llm0 "Mario" "chitchat"
      [("query", "any tables?")] "professional").1 (by decide)
  · have h := (generate_response_selects_template_or_generic llm0 "Mario" "chitchat"
      [("query", "any tables?")] "professional").2.2
    simpa using h
  · exact (generate_response_selects_template_or_generic llm0 "Mario" "order_confirmation"
      [("order_details", "2 pizzas")] "professional").2.1
      [("system", "Confirm the order clearly with all details and total price."),
       ("human", "Order details: {order_details}")] (by decide)

/-- A successfully validated `primary_intent` string is the literal of the
produced intent and one of the eight admissible strings. -/
lemma parsePrimaryIntent_toLiteral (s : String) (i : PrimaryIntent)
    (h : parsePrimaryIntent s = some i) : i.toLiteral = s ∧ s ∈ intentLiterals := by
  unfold parsePrimaryIntent at h
  split_ifs at h with h1 h2 h3 h4 h5 h6 h7 h8
  · injection h with hi; subst hi; subst h1; exact ⟨rfl, by decide⟩
  · injection h with hi; subst hi; subst h2; exact ⟨rfl, by decide⟩
  · injection h with hi; subst hi; subst h3; exact ⟨rfl, by decide⟩
  · injection h with hi; subst hi; subst h4; exact ⟨rfl, by decide⟩
  · injection h with hi; subst hi; subst h5; exact ⟨rfl, by decide⟩
  · injection h with hi; subst hi; subst h6; exact ⟨rfl, by decide⟩
  · injection h with hi; subst hi; subst h7; exact ⟨rfl, by decide⟩
  · injection h with hi; subst hi; subst h8; exact ⟨rfl, by decide⟩

/-- A string outside the eight literals is rejected by the `Literal`
validation. -/
lemma parsePrimaryIntent_of_not_mem (s : String) (h : s ∉ intentLiterals) :
    parsePrimaryIntent s = none := by
  simp only [intentLiterals, List.mem_cons, List.not_mem_nil, or_false, not_or] at h
  obtain ⟨h1, h2, h3, h4, h5, h6, h7, h8⟩ := h
  simp [parsePrimaryIntent, h1, h2, h3, h4, h5, h6, h7, h8]

/-- C9: every successfully parsed classification has a `primary_intent`
drawn from the fixed eight-element literal set (and equal to the reply's
intent string), an entity map defaulting to empty and an escalation flag
defaulting to `false` when the reply omits them; a reply whose intent string
is outside the eight literals fails to parse, so no other intent value can
be produced by `classify`. -/
theorem classify_schema_invariants :
    ∀ (raw : RawReply) (c : IntentClassification),
      (classify raw = some c →
        c.primary_intent.toLiteral ∈ intentLiterals ∧
        (∀ s, raw.primary_intent = some s → c.primary_intent.toLiteral = s) ∧
        (raw.entities = none → c.entities = []) ∧
        (raw.requires_human = none → c.requires_human = false)) ∧
      (∀ s, raw.primary_intent = some s → s ∉ intentLiterals →
        classify raw = none) := by
  intro raw c
  constructor
  · intro h
    simp only [classify, parseClassification] at h
    rcases hp : raw.primary_intent with _ | s
    · rw [hp] at h; exact absurd h (by simp)
    rw [hp] at h
    simp only [Option.bind_eq_bind, Option.some_bind] at h
    rcases hi : parsePrimaryIntent s with _ | i
    · rw [hi] at h; exact absurd h (by simp)
    rw [hi] at h
    simp only [Option.bind_eq_bind, Option.some_bind] at h
    rcases hc : raw.confidence with _ | conf
    · rw [hc] at h; exact absurd h (by simp)
    rw [hc] at h
    simp only [Option.bind_eq_bind, Option.some_bind, Option.pure_def, Option.some.injEq] at h
    obtain ⟨hlit, hmem⟩ := parsePrimaryIntent_toLiteral s i hi
    subst h
    refine ⟨?_, ?_, ?_, ?_⟩
    · show i.toLiteral ∈ intentLiterals
      rw [hlit]; exact hmem
    · intro s' hs'
      injection hs' with hss
      subst hss
      exact hlit
    · intro he; simp [he]
    · intro hr; simp [hr]
  · intro s hs hnot
    simp [classify, parseClassification, hs, parsePrimaryIntent_of_not_mem s hnot]

/-- A decoded reply carrying the admissible intent `complaint` and omitting
the optional fields. -/
def rawComplaint : RawReply :=
  { primary_intent := some "complaint", entities := none,
    confidence := some 1, requires_human := none }

/-- A decoded reply carrying the inadmissible intent string `pizza`. -/
def rawPizza : RawReply :=
  { primary_intent := some "pizza", entities := none,
    confidence := some 1, requires_human := none }

/-- C9 witness: the `complaint` reply parses with defaulted empty entities
and `requires_human = false`, and the `pizza` reply is rejected. -/
theorem classify_schema_invariants_witness :
    (IntentClassification.mk PrimaryIntent.complaint [] 1
        false).primary_intent.toLiteral ∈ intentLiterals ∧
    (IntentClassification.mk PrimaryIntent.complaint [] 1 false).entities = [] ∧
    classify rawPizza = none := by
  have h := (classify_schema_invariants rawComplaint
    (IntentClassification.mk PrimaryIntent.complaint [] 1 false)).1 rfl
  exact ⟨h.1, h.2.2.1 rfl,
    (classify_schema_invariants rawPizza
      (IntentClassification.mk PrimaryIntent.complaint [] 1 false)).2 "pizza" rfl
      (by decide)⟩

end RestaurantSystem
